import Mathlib

/-! Chapter selection activity of the EPUB reader.

A shallow embedding of `src/activities/reader/EpubReaderChapterSelectionActivity.cpp`.

* C++ `int` values are modelled as `Int`; `/` and `%` on `int` are `Int.tdiv` and
  `Int.tmod` (both truncate toward zero, as in C++).  Signed overflow is undefined
  behaviour in C++, so every statement below is about executions in which the
  intermediate values stay inside the `int` range.
* The collaborators the activity only reads from (renderer, credential store,
  input mapper, document) are records of the values their queries return.
* The callbacks `onGoBack`, `onSelectSpineIndex` and the launch of the sync
  sub-activity are reported as the `Outcome` of a tick.
-/

namespace ChapterSelection

/-! ## Collaborators -/

/-- Modelled from the spec: the declaration of `GfxRenderer::Orientation` is outside the
sources at hand; the spec gives an orientation enumeration with four values, and the source
names `PortraitInverted`, `LandscapeClockwise` and `LandscapeCounterClockwise`. -/
inductive Orientation where
  | Portrait
  | LandscapeClockwise
  | PortraitInverted
  | LandscapeCounterClockwise
  deriving DecidableEq

/-- The renderer queries the activity uses: `getScreenWidth`, `getScreenHeight`,
`getOrientation`. -/
structure GfxRenderer where
  getScreenWidth : Int
  getScreenHeight : Int
  getOrientation : Orientation

/-- The document queries the activity uses. -/
structure Epub where
  getTocItemsCount : Int
  getTocIndexForSpineIndex : Int → Int
  getSpineIndexForTocIndex : Int → Int

/-- The buttons queried by the activity through `MappedInputManager::Button`. -/
inductive Button where
  | Up
  | Down
  | Left
  | Right
  | Confirm
  | Back
  deriving DecidableEq

/-- The input mapper as sampled during one tick: released edges and hold duration (ms). -/
structure MappedInputManager where
  wasReleased : Button → Bool
  getHeldTime : Nat

/-- Everything outside the activity that its member functions read:
`KOREADER_STORE.hasCredentials()`, the renderer and the bound document. -/
structure Collaborators where
  hasCredentials : Bool
  renderer : GfxRenderer
  epub : Epub

/-! ## Activity state -/

/-- Time threshold (ms) for treating a long press as a page-up/page-down. -/
def SKIP_PAGE_MS : Nat := 700

/-- The mutable members of the activity. `subActivity`, `renderingMutex` and
`displayTaskHandle` record whether the corresponding handle is non-null. -/
structure Activity where
  selectorIndex : Int
  updateRequired : Bool
  subActivity : Bool
  renderingMutex : Bool
  displayTaskHandle : Bool
  deriving DecidableEq

/-- What a tick of `loop` asks of the outside world. -/
inductive Outcome where
  | nothing
  | subActivityLoop
  | syncActivityLaunched
  | goBack
  | selectSpineIndex (newSpineIndex : Int)
  deriving DecidableEq

/-! ## Item list -/

/-- `hasSyncOption()`. -/
def hasSyncOption (c : Collaborators) : Bool := c.hasCredentials

/-- `getTotalItems()`: two extra entries (top and bottom) when credentials are configured. -/
def getTotalItems (c : Collaborators) : Int :=
  let syncCount : Int := if hasSyncOption c then 2 else 0
  c.epub.getTocItemsCount + syncCount

/-- `isSyncItem(index)`. -/
def isSyncItem (c : Collaborators) (index : Int) : Bool :=
  if !hasSyncOption c then false
  else index == 0 || index == getTotalItems c - 1

/-- `tocIndexFromItemIndex(itemIndex)`. -/
def tocIndexFromItemIndex (c : Collaborators) (itemIndex : Int) : Int :=
  let offset : Int := if hasSyncOption c then 1 else 0
  itemIndex - offset

/-! ## Viewport -/

/-- The `availableHeight` local of `getPageItems()`. -/
def availableHeight (r : GfxRenderer) : Int :=
  let lineHeight : Int := 30
  let screenHeight := r.getScreenHeight
  let isPortraitInverted := r.getOrientation == Orientation.PortraitInverted
  let hintGutterHeight : Int := if isPortraitInverted then 50 else 0
  let startY := 60 + hintGutterHeight
  screenHeight - startY - lineHeight

/-- `getPageItems()`: `std::max(1, availableHeight / lineHeight)`. -/
def getPageItems (r : GfxRenderer) : Int :=
  let lineHeight : Int := 30
  max 1 (Int.tdiv (availableHeight r) lineHeight)

/-- The content-area locals computed at the top of `renderScreen()`. -/
structure ContentArea where
  hintGutterWidth : Int
  contentX : Int
  contentWidth : Int
  hintGutterHeight : Int
  contentY : Int
  deriving DecidableEq

/-- The geometry part of `renderScreen()` (lines 181-193). -/
def contentArea (r : GfxRenderer) : ContentArea :=
  let pageWidth := r.getScreenWidth
  let orientation := r.getOrientation
  let isLandscapeCw := orientation == Orientation.LandscapeClockwise
  let isLandscapeCcw := orientation == Orientation.LandscapeCounterClockwise
  let isPortraitInverted := orientation == Orientation.PortraitInverted
  let hintGutterWidth : Int := if isLandscapeCw || isLandscapeCcw then 30 else 0
  let contentX : Int := if isLandscapeCw then hintGutterWidth else 0
  let contentWidth := pageWidth - hintGutterWidth
  let hintGutterHeight : Int := if isPortraitInverted then 50 else 0
  let contentY := hintGutterHeight
  { hintGutterWidth := hintGutterWidth, contentX := contentX, contentWidth := contentWidth,
    hintGutterHeight := hintGutterHeight, contentY := contentY }

/-! ## Lifecycle and control loop -/

/-- `onEnter()`: nothing happens without a document; otherwise the mutex is created, the
selector is placed on the current chapter, a first update is requested and the display task
is created. The call into the base class `ActivityWithSubactivity::onEnter()` touches none
of the members recorded here. -/
def onEnter (hasCredentials : Bool) (epub : Option Epub) (currentSpineIndex : Int)
    (a : Activity) : Activity :=
  match epub with
  | none => a
  | some e =>
    let syncOffset : Int := if hasCredentials then 1 else 0
    let selectorIndex := e.getTocIndexForSpineIndex currentSpineIndex
    let selectorIndex := if selectorIndex == -1 then 0 else selectorIndex
    let selectorIndex := selectorIndex + syncOffset
    { a with renderingMutex := true, selectorIndex := selectorIndex,
             updateRequired := true, displayTaskHandle := true }

/-- `launchSyncActivity()`: under the rendering mutex the current sub-activity is left and
the sync activity becomes the sub-activity. -/
def launchSyncActivity (a : Activity) : Activity :=
  { a with subActivity := true }

/-- Selector update of `loop()` for a previous-release with `skipPage` (line 151). -/
def skipPrevIndex (selectorIndex pageItems totalItems : Int) : Int :=
  Int.tmod ((Int.tdiv selectorIndex pageItems - 1) * pageItems + totalItems) totalItems

/-- Selector update of `loop()` for a previous-release without `skipPage` (line 153). -/
def prevIndex (selectorIndex totalItems : Int) : Int :=
  Int.tmod (selectorIndex + totalItems - 1) totalItems

/-- Selector update of `loop()` for a next-release with `skipPage` (line 158). -/
def skipNextIndex (selectorIndex pageItems totalItems : Int) : Int :=
  Int.tmod ((Int.tdiv selectorIndex pageItems + 1) * pageItems) totalItems

/-- Selector update of `loop()` for a next-release without `skipPage` (line 160). -/
def nextIndex (selectorIndex totalItems : Int) : Int :=
  Int.tmod (selectorIndex + 1) totalItems

/-- The `prevReleased` local of `loop()`: Up or Left released. -/
def prevReleased (mappedInput : MappedInputManager) : Bool :=
  mappedInput.wasReleased Button.Up || mappedInput.wasReleased Button.Left

/-- The `nextReleased` local of `loop()`: Down or Right released. -/
def nextReleased (mappedInput : MappedInputManager) : Bool :=
  mappedInput.wasReleased Button.Down || mappedInput.wasReleased Button.Right

/-- The `skipPage` local of `loop()`: held longer than `SKIP_PAGE_MS`. -/
def skipPage (mappedInput : MappedInputManager) : Bool :=
  decide (mappedInput.getHeldTime > SKIP_PAGE_MS)

/-- One tick of `loop()`. -/
def loop (c : Collaborators) (mappedInput : MappedInputManager) (a : Activity) :
    Activity × Outcome :=
  if a.subActivity then (a, Outcome.subActivityLoop)
  else
    let pageItems := getPageItems c.renderer
    let totalItems := getTotalItems c
    if mappedInput.wasReleased Button.Confirm then
      if isSyncItem c a.selectorIndex then
        (launchSyncActivity a, Outcome.syncActivityLaunched)
      else
        let tocIndex := tocIndexFromItemIndex c a.selectorIndex
        let newSpineIndex := c.epub.getSpineIndexForTocIndex tocIndex
        if newSpineIndex == -1 then (a, Outcome.goBack)
        else (a, Outcome.selectSpineIndex newSpineIndex)
    else if mappedInput.wasReleased Button.Back then (a, Outcome.goBack)
    else if prevReleased mappedInput then
      if skipPage mappedInput then
        ({ a with selectorIndex := skipPrevIndex a.selectorIndex pageItems totalItems,
                  updateRequired := true }, Outcome.nothing)
      else
        ({ a with selectorIndex := prevIndex a.selectorIndex totalItems,
                  updateRequired := true }, Outcome.nothing)
    else if nextReleased mappedInput then
      if skipPage mappedInput then
        ({ a with selectorIndex := skipNextIndex a.selectorIndex pageItems totalItems,
                  updateRequired := true }, Outcome.nothing)
      else
        ({ a with selectorIndex := nextIndex a.selectorIndex totalItems,
                  updateRequired := true }, Outcome.nothing)
    else (a, Outcome.nothing)

/-- The sampled input reaches the previous-release branch of `loop()` (neither Confirm nor
Back released, Up or Left released) with the given value of `skipPage`. -/
def takesPrev (mappedInput : MappedInputManager) (skip : Bool) : Bool :=
  !mappedInput.wasReleased Button.Confirm && !mappedInput.wasReleased Button.Back &&
    prevReleased mappedInput && (skipPage mappedInput == skip)

/-- The sampled input reaches the next-release branch of `loop()` (neither Confirm nor Back
released, neither Up nor Left released, Down or Right released) with the given `skipPage`. -/
def takesNext (mappedInput : MappedInputManager) (skip : Bool) : Bool :=
  !mappedInput.wasReleased Button.Confirm && !mappedInput.wasReleased Button.Back &&
    !prevReleased mappedInput && nextReleased mappedInput && (skipPage mappedInput == skip)

/-- The selector after one tick. -/
def tick (c : Collaborators) (mappedInput : MappedInputManager) (a : Activity) : Activity :=
  (loop c mappedInput a).1

/-- Modelled from the spec: the class header with the member initialisers is outside the
sources at hand; the activity state is created afresh on entry, and the sibling header
`EpubReaderMenuActivity.h` initialises the same members this way: selector at 0, no pending
update, no sub-activity, null mutex and task handles. -/
def constructed : Activity :=
  { selectorIndex := 0, updateRequired := false, subActivity := false,
    renderingMutex := false, displayTaskHandle := false }

/-- The screen is active: an update is pending and the mutex and display task exist. -/
def isActive (a : Activity) : Bool :=
  a.updateRequired && a.renderingMutex && a.displayTaskHandle

/-! ## Concrete collaborators used in examples -/

/-- A document with `n` table-of-contents entries whose entry `k` opens spine item `k`. -/
def plainEpub (n : Int) : Epub :=
  { getTocItemsCount := n,
    getTocIndexForSpineIndex := fun s => if 0 ≤ s ∧ s < n then s else -1,
    getSpineIndexForTocIndex := fun t => if 0 ≤ t ∧ t < n then t else -1 }

/-- A 480x800 panel held in portrait. -/
def portraitPanel : GfxRenderer :=
  { getScreenWidth := 480, getScreenHeight := 800, getOrientation := Orientation.Portrait }

/-- Input with exactly one button released after being held for `held` ms. -/
def released (b : Button) (held : Nat) : MappedInputManager :=
  { wasReleased := fun x => decide (x = b), getHeldTime := held }

/-- An entered activity resting on `selectorIndex`, with no sub-activity. -/
def resting (selectorIndex : Int) : Activity :=
  { selectorIndex := selectorIndex, updateRequired := false, subActivity := false,
    renderingMutex := true, displayTaskHandle := true }

/-- Collaborators for a document with `n` entries shown on the portrait panel. -/
def onPortrait (hasCredentials : Bool) (n : Int) : Collaborators :=
  { hasCredentials := hasCredentials, renderer := portraitPanel, epub := plainEpub n }

/-- A renderer with the given height whose viewport is not inverted portrait. -/
def panelOfHeight (h : Int) : GfxRenderer :=
  { getScreenWidth := 480, getScreenHeight := h, getOrientation := Orientation.Portrait }

/-- Collaborators for a document with `n` entries on a panel of height `h`. -/
def onHeight (h : Int) (hasCredentials : Bool) (n : Int) : Collaborators :=
  { hasCredentials := hasCredentials, renderer := panelOfHeight h, epub := plainEpub n }

/-! ## Teardown and the display task

The control loop and the display task are two execution contexts. Each advances one
statement at a time, in any interleaving; a context whose next statement is a blocked
`xSemaphoreTake` does not advance. -/

/-- The two execution contexts of an entered screen. -/
inductive Context where
  | controller
  | displayTask
  deriving DecidableEq

/-- Where the controller stands. Outside `launchSyncActivity()` and `onExit()` it is
`running`; inside them the name tells the statement that is executed next. -/
inductive ControllerPc where
  | running
  -- launchSyncActivity, line 100: xSemaphoreTake
  | syncTake
  -- launchSyncActivity, lines 101-113: exitActivity, enterNewActivity
  | syncEnter
  -- launchSyncActivity, line 114: xSemaphoreGive
  | syncGive
  -- onExit, line 90: xSemaphoreTake
  | exitTake
  -- onExit, lines 91-94: vTaskDelete when the handle is set, handle cleared
  | exitDeleteTask
  -- onExit, lines 95-96: vSemaphoreDelete, handle cleared
  | exitDeleteMutex
  -- onExit has returned
  | exited
  deriving DecidableEq

/-- The statement of `displayTaskLoop()` the display task executes next. `draw` and `flush`
are the two parts of the call `renderScreen()` of line 171: drawing into the frame buffer
(lines 179-229) and `renderer.displayBuffer()` (line 231). -/
inductive DisplayPc where
  -- line 168: the test of updateRequired and subActivity
  | check
  -- line 169: updateRequired = false
  | clear
  -- line 170: xSemaphoreTake
  | take
  | draw
  | flush
  -- line 172: xSemaphoreGive
  | give
  -- line 174: vTaskDelay
  | delay
  deriving DecidableEq

/-- An entered screen: the members of the activity, the position of both contexts, whether
the display task still exists, and which context holds `renderingMutex`. A deleted task
stays at the statement it was deleted at. -/
structure Screen where
  activity : Activity
  controller : ControllerPc
  display : DisplayPc
  taskAlive : Bool
  mutexHolder : Option Context
  deriving DecidableEq

/-- Modelled from the spec: FreeRTOS is outside the sources at hand. The exclusive display
lock of the spec: taking it succeeds only while no context holds it, and makes the caller the
holder; otherwise the caller blocks, without timeout (`portMAX_DELAY`), which is `none`. -/
def xSemaphoreTake (who : Context) (holder : Option Context) : Option (Option Context) :=
  match holder with
  | none => some (some who)
  | some _ => none

/-- Modelled from the spec: releasing the exclusive display lock leaves it without holder. -/
def xSemaphoreGive (_holder : Option Context) : Option Context := none

/-- A paint is in progress: the display task is inside `renderScreen()`. -/
def painting (s : Screen) : Bool :=
  s.display == DisplayPc.draw || s.display == DisplayPc.flush

/-- One statement of `displayTaskLoop()` (lines 166-176); a deleted task does not run. -/
def displayTaskLoop (s : Screen) : Option Screen :=
  if !s.taskAlive then none
  else
    match s.display with
    | DisplayPc.check =>
      if s.activity.updateRequired && !s.activity.subActivity then
        some { s with display := DisplayPc.clear }
      else some { s with display := DisplayPc.delay }
    | DisplayPc.clear =>
      some { s with activity := { s.activity with updateRequired := false },
                    display := DisplayPc.take }
    | DisplayPc.take =>
      (xSemaphoreTake Context.displayTask s.mutexHolder).map fun h =>
        { s with mutexHolder := h, display := DisplayPc.draw }
    | DisplayPc.draw => some { s with display := DisplayPc.flush }
    | DisplayPc.flush => some { s with display := DisplayPc.give }
    | DisplayPc.give =>
      some { s with mutexHolder := xSemaphoreGive s.mutexHolder, display := DisplayPc.delay }
    | DisplayPc.delay => some { s with display := DisplayPc.check }

/-- One statement of `onExit()` after the call into the base class (lines 90-96):
`xSemaphoreTake`; then `vTaskDelete` and clearing the handle if the handle is set; then
`vSemaphoreDelete` and clearing the mutex handle. -/
def onExit (s : Screen) : Option Screen :=
  match s.controller with
  | ControllerPc.exitTake =>
    (xSemaphoreTake Context.controller s.mutexHolder).map fun h =>
      { s with mutexHolder := h, controller := ControllerPc.exitDeleteTask }
  | ControllerPc.exitDeleteTask =>
    if s.activity.displayTaskHandle then
      some { s with taskAlive := false,
                    activity := { s.activity with displayTaskHandle := false },
                    controller := ControllerPc.exitDeleteMutex }
    else some { s with controller := ControllerPc.exitDeleteMutex }
  | ControllerPc.exitDeleteMutex =>
    some { s with mutexHolder := none,
                  activity := { s.activity with renderingMutex := false },
                  controller := ControllerPc.exited }
  | _ => none

/-- One statement of `launchSyncActivity()` in its interleaved form (lines 100-114); the
sequential effect of the whole call is `launchSyncActivity`. -/
def launchSyncActivityStep (s : Screen) : Option Screen :=
  match s.controller with
  | ControllerPc.syncTake =>
    (xSemaphoreTake Context.controller s.mutexHolder).map fun h =>
      { s with mutexHolder := h, controller := ControllerPc.syncEnter }
  | ControllerPc.syncEnter =>
    some { s with activity := launchSyncActivity s.activity,
                  controller := ControllerPc.syncGive }
  | ControllerPc.syncGive =>
    some { s with mutexHolder := xSemaphoreGive s.mutexHolder,
                  controller := ControllerPc.running }
  | _ => none

/-- What can happen next on an entered screen. -/
inductive Action where
  -- the host calls loop() with the given collaborators and sampled input
  | callLoop (c : Collaborators) (mappedInput : MappedInputManager)
  -- the cancel callback of the sync sub-activity (lines 105-107)
  | syncCancelled
  -- the completion callback of the sync sub-activity (lines 110-112)
  | syncCompleted
  -- the host calls onExit(); the base-class part (line 87) is outside the sources, the flag
  -- tells whether it leaves a sub-activity behind
  | callOnExit (subActivityLeft : Bool)
  -- the controller executes its next statement inside launchSyncActivity() or onExit()
  | controllerStep
  -- the display task executes its next statement
  | displayStep

/-- The effect of an action, or `none` when it cannot happen now (the context is elsewhere,
blocked on the mutex, or deleted). -/
def step (act : Action) (s : Screen) : Option Screen :=
  match act with
  | Action.callLoop c mappedInput =>
    if s.controller = ControllerPc.running then
      if s.activity.subActivity then some s
      else if (loop c mappedInput s.activity).2 = Outcome.syncActivityLaunched then
        some { s with controller := ControllerPc.syncTake }
      else some { s with activity := (loop c mappedInput s.activity).1 }
    else none
  | Action.syncCancelled =>
    if s.controller = ControllerPc.running ∧ s.activity.subActivity = true then
      some { s with
        activity := { s.activity with subActivity := false, updateRequired := true } }
    else none
  | Action.syncCompleted =>
    if s.controller = ControllerPc.running ∧ s.activity.subActivity = true then
      some { s with activity := { s.activity with subActivity := false } }
    else none
  | Action.callOnExit subActivityLeft =>
    if s.controller = ControllerPc.running then
      some { s with activity := { s.activity with subActivity := subActivityLeft },
                    controller := ControllerPc.exitTake }
    else none
  | Action.controllerStep =>
    match onExit s with
    | some s' => some s'
    | none => launchSyncActivityStep s
  | Action.displayStep => displayTaskLoop s

/-- The screen after a schedule of actions; an action that cannot happen is skipped. -/
def run (sched : List Action) (s : Screen) : Screen :=
  sched.foldl (fun s act => (step act s).getD s) s

/-- The screen right after `onEnter()` on a bound document: the controller is running, the
display task was just created at the top of `displayTaskLoop()`, the mutex is free. -/
def entered (hasCredentials : Bool) (e : Epub) (currentSpineIndex : Int) : Screen :=
  { activity := onEnter hasCredentials (some e) currentSpineIndex constructed,
    controller := ControllerPc.running,
    display := DisplayPc.check,
    taskAlive := true,
    mutexHolder := none }

/-- The invariant of an entered screen: the display task holds the mutex exactly between
its take and its give; the controller holds it exactly inside the locked parts of
`launchSyncActivity()` and `onExit()`; the task is gone exactly once `onExit()` is past
`vTaskDelete`; the task handle is set exactly while the task exists; the mutex handle is
cleared exactly once `onExit()` has returned, and nobody holds the destroyed mutex. -/
def Invariant (s : Screen) : Prop :=
  (s.mutexHolder = some Context.displayTask ↔
    (s.display = DisplayPc.draw ∨ s.display = DisplayPc.flush ∨ s.display = DisplayPc.give)) ∧
  (s.mutexHolder = some Context.controller ↔
    (s.controller = ControllerPc.syncEnter ∨ s.controller = ControllerPc.syncGive ∨
      s.controller = ControllerPc.exitDeleteTask ∨
      s.controller = ControllerPc.exitDeleteMutex)) ∧
  (s.taskAlive = false ↔
    (s.controller = ControllerPc.exitDeleteMutex ∨ s.controller = ControllerPc.exited)) ∧
  s.activity.displayTaskHandle = s.taskAlive ∧
  (s.activity.renderingMutex = false ↔ s.controller = ControllerPc.exited) ∧
  (s.controller = ControllerPc.exited → s.mutexHolder = none)

/-- A teardown requested in the middle of a paint: the display task starts a paint, the host
calls `onExit()`, the controller tries to take the mutex twice while the paint goes on, the
paint ends and the mutex is given, and `onExit()` runs to its end. -/
def teardownDuringPaint : List Action :=
  [Action.displayStep, Action.displayStep, Action.displayStep, Action.callOnExit false,
   Action.controllerStep, Action.displayStep, Action.controllerStep, Action.displayStep,
   Action.displayStep, Action.controllerStep, Action.controllerStep, Action.controllerStep]

/-- The screens that executions reach: some schedule of actions run from the screen that
`onEnter()` leaves on a bound document. -/
def Reachable (s : Screen) : Prop :=
  ∃ (hasCredentials : Bool) (e : Epub) (currentSpineIndex : Int) (sched : List Action),
    s = run sched (entered hasCredentials e currentSpineIndex)

/-! ## Arithmetic of truncating division -/

theorem tmod_mem_range {x n : Int} (hx : 0 ≤ x) (hn : 0 < n) :
    0 ≤ x.tmod n ∧ x.tmod n < n :=
  ⟨Int.tmod_nonneg n hx, Int.tmod_lt_of_pos x hn⟩

theorem tmod_add_modulus {x n : Int} (h0 : 0 ≤ x) (hx : x < n) : (x + n).tmod n = x := by
  rw [Int.tmod_eq_emod (by omega) (by omega), Int.add_emod_self, Int.emod_eq_of_lt h0 hx]

theorem tdiv_page_bounds {i p : Int} (hi : 0 ≤ i) (hp : 0 < p) :
    0 ≤ i.tdiv p ∧ i.tdiv p * p ≤ i := by
  rw [Int.tdiv_eq_ediv hi hp.le]
  exact ⟨Int.ediv_nonneg hi hp.le, Int.ediv_mul_le i hp.ne'⟩

theorem getPageItems_pos (r : GfxRenderer) : 1 ≤ getPageItems r := by
  unfold getPageItems
  exact le_max_left _ _

theorem nextIndex_eq {i n : Int} (h0 : 0 ≤ i) (hi : i < n) :
    nextIndex i n = if i + 1 = n then 0 else i + 1 := by
  unfold nextIndex
  split_ifs with h
  · rw [h, Int.tmod_self]
  · exact Int.tmod_eq_of_lt (by omega) (by omega)

theorem prevIndex_eq {i n : Int} (h0 : 0 ≤ i) (hi : i < n) :
    prevIndex i n = if i = 0 then n - 1 else i - 1 := by
  unfold prevIndex
  split_ifs with h
  · subst h
    have e : (0 : Int) + n - 1 = n - 1 := by ring
    rw [e]
    exact @Int.tmod_eq_of_lt (n - 1) n (by omega) (by omega)
  · have e : i + n - 1 = (i - 1) + n := by ring
    rw [e]
    exact @tmod_add_modulus (i - 1) n (by omega) (by omega)

theorem skipNextIndex_mem_range {i p n : Int} (h0 : 0 ≤ i) (hp : 0 < p) (hn : 0 < n) :
    0 ≤ skipNextIndex i p n ∧ skipNextIndex i p n < n := by
  unfold skipNextIndex
  have hq := (tdiv_page_bounds h0 hp).1
  exact tmod_mem_range (mul_nonneg (by omega) hp.le) hn

theorem skipNextIndex_eq_of_lt {i p n : Int} (h0 : 0 ≤ i) (hp : 0 < p)
    (h : (i.tdiv p + 1) * p < n) : skipNextIndex i p n = (i.tdiv p + 1) * p := by
  unfold skipNextIndex
  have hq := (tdiv_page_bounds h0 hp).1
  exact Int.tmod_eq_of_lt (mul_nonneg (by omega) hp.le) h

theorem skipPrevIndex_eq_of_page_pos {i p n : Int} (h0 : 0 ≤ i) (hi : i < n) (hp : 0 < p)
    (h : 1 ≤ i.tdiv p) : skipPrevIndex i p n = (i.tdiv p - 1) * p := by
  unfold skipPrevIndex
  have hq := (tdiv_page_bounds h0 hp).2
  have e : (i.tdiv p - 1) * p = i.tdiv p * p - p := by ring
  have hm : 0 ≤ (i.tdiv p - 1) * p := mul_nonneg (by omega) hp.le
  exact tmod_add_modulus hm (by rw [e]; omega)

theorem skipPrevIndex_mem_range_of_le {i p n : Int} (h0 : 0 ≤ i) (hp : 0 < p) (hpn : p ≤ n) :
    0 ≤ skipPrevIndex i p n ∧ skipPrevIndex i p n < n := by
  unfold skipPrevIndex
  have hq := (tdiv_page_bounds h0 hp).1
  have e : (i.tdiv p - 1) * p = i.tdiv p * p - p := by ring
  have hm : 0 ≤ i.tdiv p * p := mul_nonneg hq hp.le
  exact tmod_mem_range (by rw [e]; omega) (by omega)

theorem nextIndex_mem_range {i n : Int} (h0 : 0 ≤ i) (hi : i < n) :
    0 ≤ nextIndex i n ∧ nextIndex i n < n := by
  rw [nextIndex_eq h0 hi]
  split_ifs <;> omega

theorem prevIndex_mem_range {i n : Int} (h0 : 0 ≤ i) (hi : i < n) :
    0 ≤ prevIndex i n ∧ prevIndex i n < n := by
  rw [prevIndex_eq h0 hi]
  split_ifs <;> omega

/-! ## The branches of `loop()` -/

theorem loop_of_takesPrev (c : Collaborators) {m : MappedInputManager} {a : Activity}
    {skip : Bool} (hsub : a.subActivity = false) (h : takesPrev m skip = true) :
    loop c m a =
      ({ a with
          selectorIndex :=
            if skip then skipPrevIndex a.selectorIndex (getPageItems c.renderer) (getTotalItems c)
            else prevIndex a.selectorIndex (getTotalItems c),
          updateRequired := true }, Outcome.nothing) := by
  simp only [takesPrev, Bool.and_eq_true, Bool.not_eq_true', beq_iff_eq] at h
  obtain ⟨⟨⟨hc, hb⟩, hp⟩, hs⟩ := h
  cases skip <;> simp [loop, hsub, hc, hb, hp, hs]

theorem loop_of_takesNext (c : Collaborators) {m : MappedInputManager} {a : Activity}
    {skip : Bool} (hsub : a.subActivity = false) (h : takesNext m skip = true) :
    loop c m a =
      ({ a with
          selectorIndex :=
            if skip then skipNextIndex a.selectorIndex (getPageItems c.renderer) (getTotalItems c)
            else nextIndex a.selectorIndex (getTotalItems c),
          updateRequired := true }, Outcome.nothing) := by
  simp only [takesNext, Bool.and_eq_true, Bool.not_eq_true', beq_iff_eq] at h
  obtain ⟨⟨⟨⟨hc, hb⟩, hp⟩, hn⟩, hs⟩ := h
  cases skip <;> simp [loop, hsub, hc, hb, hp, hn, hs]

/-- Every tick keeps the selector inside `[0, totalItems)` as long as a page holds no more
items than the list has (`pageItems ≤ totalItems`). -/
theorem tick_keeps_range_of_pageItems_le (c : Collaborators) (m : MappedInputManager)
    (a : Activity) (h0 : 0 ≤ a.selectorIndex) (hi : a.selectorIndex < getTotalItems c)
    (hle : getPageItems c.renderer ≤ getTotalItems c) :
    0 ≤ (tick c m a).selectorIndex ∧ (tick c m a).selectorIndex < getTotalItems c := by
  have hp := getPageItems_pos c.renderer
  unfold tick loop
  simp only []
  split_ifs
  all_goals simp only [launchSyncActivity]
  all_goals first
    | exact ⟨h0, hi⟩
    | exact skipPrevIndex_mem_range_of_le h0 (by omega) hle
    | exact prevIndex_mem_range h0 hi
    | exact skipNextIndex_mem_range h0 (by omega) (by omega)
    | exact nextIndex_mem_range h0 hi

theorem tick_selectorIndex_of_takesNext (c : Collaborators) {m : MappedInputManager}
    {a : Activity} {skip : Bool} (hsub : a.subActivity = false)
    (h : takesNext m skip = true) :
    (tick c m a).selectorIndex =
      if skip then skipNextIndex a.selectorIndex (getPageItems c.renderer) (getTotalItems c)
      else nextIndex a.selectorIndex (getTotalItems c) := by
  unfold tick
  rw [loop_of_takesNext c hsub h]

theorem tick_selectorIndex_of_takesPrev (c : Collaborators) {m : MappedInputManager}
    {a : Activity} {skip : Bool} (hsub : a.subActivity = false)
    (h : takesPrev m skip = true) :
    (tick c m a).selectorIndex =
      if skip then skipPrevIndex a.selectorIndex (getPageItems c.renderer) (getTotalItems c)
      else prevIndex a.selectorIndex (getTotalItems c) := by
  unfold tick
  rw [loop_of_takesPrev c hsub h]

theorem tick_of_takesNext_subActivity (c : Collaborators) {m : MappedInputManager}
    {a : Activity} {skip : Bool} (hsub : a.subActivity = false)
    (h : takesNext m skip = true) : (tick c m a).subActivity = false := by
  unfold tick
  rw [loop_of_takesNext c hsub h]
  exact hsub

theorem tdiv_page_start (k : Nat) {p : Int} (hp : 0 < p) : ((k : Int) * p).tdiv p = k :=
  Int.mul_tdiv_cancel _ hp.ne'

/-- Repeated skip-next from index 0 walks the page starts `0, p, 2p, ...` while they exist. -/
theorem iterate_skipNext_from_zero (c : Collaborators) {m : MappedInputManager} (a : Activity)
    (hsub : a.subActivity = false) (h : takesNext m true = true) (k : Nat)
    (hk : (k : Int) * getPageItems c.renderer < getTotalItems c) :
    ((tick c m)^[k] { a with selectorIndex := 0 }).subActivity = false ∧
    ((tick c m)^[k] { a with selectorIndex := 0 }).selectorIndex
      = (k : Int) * getPageItems c.renderer := by
  have hp := getPageItems_pos c.renderer
  induction k with
  | zero => exact ⟨hsub, by simp⟩
  | succ j ih =>
    have hj : (j : Int) * getPageItems c.renderer < getTotalItems c := by
      have e : ((j + 1 : Nat) : Int) * getPageItems c.renderer
          = (j : Int) * getPageItems c.renderer + getPageItems c.renderer := by
        push_cast; ring
      omega
    obtain ⟨hs, hv⟩ := ih hj
    rw [Function.iterate_succ_apply']
    refine ⟨tick_of_takesNext_subActivity c hs h, ?_⟩
    rw [tick_selectorIndex_of_takesNext c hs h]
    simp only [if_true]
    rw [hv]
    have e : ((j : Int) * getPageItems c.renderer).tdiv (getPageItems c.renderer) + 1
        = ((j + 1 : Nat) : Int) := by
      rw [tdiv_page_start j (by omega)]; push_cast; ring
    unfold skipNextIndex
    rw [e]
    exact Int.tmod_eq_of_lt (mul_nonneg (by positivity) (by omega)) hk

/-! ## Selector navigation -/

/-- C1 (code defect): on a 480x800 portrait panel (23 items per page) showing a document with
three chapters and no sync option, `onEnter` rests the selector on index 0, which is inside
`[0, totalItems) = [0, 3)`; one tick of `loop` with Up released after a hold longer than
`SKIP_PAGE_MS` then stores `((0 / 23 - 1) * 23 + 3) % 3 = -20 % 3 = -2` in `selectorIndex`,
outside the range. -/
theorem skip_prev_escapes_range :
    getTotalItems (onPortrait false 3) = 3 ∧
    getPageItems (onPortrait false 3).renderer = 23 ∧
    (onEnter false (some (plainEpub 3)) 0 constructed).selectorIndex = 0 ∧
    (resting 0).subActivity = false ∧
    loop (onPortrait false 3) (released Button.Up 701) (resting 0)
      = ({ resting 0 with selectorIndex := -2, updateRequired := true }, Outcome.nothing) ∧
    ¬ (0 ≤ (tick (onPortrait false 3) (released Button.Up 701) (resting 0)).selectorIndex) := by
  decide

/-- C2: for a list of `totalItems` entries and a selector in `[0, totalItems)` (so
`totalItems ≥ 1`), a tick of `loop` taking the non-skip next branch followed by a tick taking
the non-skip previous branch restores the selector; and the non-skip next branch taken at the
last index `totalItems - 1` yields index 0. -/
theorem next_then_prev_restores_selector (c : Collaborators) (mNext mPrev : MappedInputManager)
    (a : Activity) (hsub : a.subActivity = false)
    (h0 : 0 ≤ a.selectorIndex) (hi : a.selectorIndex < getTotalItems c)
    (hNext : takesNext mNext false = true) (hPrev : takesPrev mPrev false = true) :
    (tick c mNext a).selectorIndex = nextIndex a.selectorIndex (getTotalItems c) ∧
    (tick c mPrev (tick c mNext a)).selectorIndex = a.selectorIndex ∧
    (a.selectorIndex = getTotalItems c - 1 → (tick c mNext a).selectorIndex = 0) := by
  have hs := tick_of_takesNext_subActivity c hsub hNext
  have e1 : (tick c mNext a).selectorIndex = nextIndex a.selectorIndex (getTotalItems c) := by
    rw [tick_selectorIndex_of_takesNext c hsub hNext]
    simp
  have e2 : (tick c mPrev (tick c mNext a)).selectorIndex
      = prevIndex (tick c mNext a).selectorIndex (getTotalItems c) := by
    rw [tick_selectorIndex_of_takesPrev c hs hPrev]
    simp
  have hr := nextIndex_mem_range h0 hi
  refine ⟨e1, ?_, ?_⟩
  · rw [e2, e1, prevIndex_eq hr.1 hr.2, nextIndex_eq h0 hi]
    split_ifs <;> omega
  · intro hlast
    rw [e1, nextIndex_eq h0 hi]
    split_ifs <;> omega

/-- Witness for C2: five entries, no sync option; next from index 4 gives 0 and previous
from there gives 4 again. -/
theorem next_then_prev_restores_selector_witness :
    (tick (onPortrait false 5) (released Button.Down 0) (resting 4)).selectorIndex = 0 ∧
    (tick (onPortrait false 5) (released Button.Up 0)
      (tick (onPortrait false 5) (released Button.Down 0) (resting 4))).selectorIndex = 4 :=
  have h := next_then_prev_restores_selector (onPortrait false 5) (released Button.Down 0)
    (released Button.Up 0) (resting 4) rfl (by decide) (by decide) (by decide) (by decide)
  ⟨h.2.2 (by decide), h.2.1⟩

/-- C3 (code defect): on the 480x800 portrait panel (23 items per page) with 30 entries,
skip-next from index 23 (the start of the last page) stores `(23 / 23 + 1) * 23 % 30 = 16`
and skip-previous from index 0 stores `((0 / 23 - 1) * 23 + 30) % 30 = 7`; neither is a
multiple of the 23 items of a page. -/
theorem skip_wrap_misses_page_start :
    getPageItems (onPortrait false 30).renderer = 23 ∧
    getTotalItems (onPortrait false 30) = 30 ∧
    (tick (onPortrait false 30) (released Button.Down 701) (resting 23)).selectorIndex = 16 ∧
    (tick (onPortrait false 30) (released Button.Up 701) (resting 0)).selectorIndex = 7 ∧
    Int.tmod 16 (getPageItems (onPortrait false 30).renderer) ≠ 0 ∧
    Int.tmod 7 (getPageItems (onPortrait false 30).renderer) ≠ 0 := by
  decide

/-- C10: with `p = getPageItems()`, `n = getTotalItems()`, a selector `i` in `[0, n)` and
`page = i / p`: when `(page + 1) * p < n` the skip-next branch of `loop` stores
`(page + 1) * p`; when `page ≥ 1` the skip-previous branch stores `(page - 1) * p`; and
`k` skip-next ticks from index 0 reach the page start `k * p` for every page `k` of the list
(`k * p < n`), a last partial page included. -/
theorem skip_reaches_adjacent_page (c : Collaborators) (mNext mPrev : MappedInputManager)
    (a : Activity) (hsub : a.subActivity = false)
    (h0 : 0 ≤ a.selectorIndex) (hi : a.selectorIndex < getTotalItems c)
    (hNext : takesNext mNext true = true) (hPrev : takesPrev mPrev true = true) :
    ((a.selectorIndex.tdiv (getPageItems c.renderer) + 1) * getPageItems c.renderer
        < getTotalItems c →
      (tick c mNext a).selectorIndex
        = (a.selectorIndex.tdiv (getPageItems c.renderer) + 1) * getPageItems c.renderer) ∧
    (1 ≤ a.selectorIndex.tdiv (getPageItems c.renderer) →
      (tick c mPrev a).selectorIndex
        = (a.selectorIndex.tdiv (getPageItems c.renderer) - 1) * getPageItems c.renderer) ∧
    (∀ k : Nat, (k : Int) * getPageItems c.renderer < getTotalItems c →
      ((tick c mNext)^[k] { a with selectorIndex := 0 }).selectorIndex
        = (k : Int) * getPageItems c.renderer) := by
  have hp := getPageItems_pos c.renderer
  refine ⟨?_, ?_, ?_⟩
  · intro h
    rw [tick_selectorIndex_of_takesNext c hsub hNext]
    exact skipNextIndex_eq_of_lt h0 (by omega) h
  · intro h
    rw [tick_selectorIndex_of_takesPrev c hsub hPrev]
    exact skipPrevIndex_eq_of_page_pos h0 hi (by omega) h
  · intro k hk
    exact (iterate_skipNext_from_zero c a hsub hNext k hk).2

/-- Witness for C10: four items per page (panel height 210), ten entries, selector 5 on
page 1: skip-next stores 8, skip-previous stores 0, and two skip-next ticks from index 0
reach the last, partial page at index 8. -/
theorem skip_reaches_adjacent_page_witness :
    getPageItems (onHeight 210 false 10).renderer = 4 ∧
    getTotalItems (onHeight 210 false 10) = 10 ∧
    (tick (onHeight 210 false 10) (released Button.Down 701) (resting 5)).selectorIndex = 8 ∧
    (tick (onHeight 210 false 10) (released Button.Up 701) (resting 5)).selectorIndex = 0 ∧
    ((tick (onHeight 210 false 10) (released Button.Down 701))^[2]
      { resting 5 with selectorIndex := 0 }).selectorIndex = 8 :=
  have h := skip_reaches_adjacent_page (onHeight 210 false 10) (released Button.Down 701)
    (released Button.Up 701) (resting 5) rfl (by decide) (by decide) (by decide) (by decide)
  ⟨by decide, by decide, (h.1 (by decide)).trans (by decide),
    (h.2.1 (by decide)).trans (by decide), (h.2.2 2 (by decide)).trans (by decide)⟩

/-! ## Item list -/

/-- C4: whatever count `getTocItemsCount()` reports (non-negative counts in particular),
`getTotalItems()` adds 2 exactly when the sync option is enabled; inside `[0, totalItems)` an index is a sync item iff the option is
enabled and the index is 0 or `totalItems - 1`; `tocIndexFromItemIndex` subtracts 1 when the
option is enabled and nothing otherwise, and maps the non-sync indices of `[0, totalItems)`
bijectively onto `[0, contentCount)`. -/
theorem sync_positions_and_toc_translation (c : Collaborators) :
    getTotalItems c = c.epub.getTocItemsCount + (if hasSyncOption c then 2 else 0) ∧
    (∀ i : Int, 0 ≤ i → i < getTotalItems c →
      (isSyncItem c i = true ↔
        (hasSyncOption c = true ∧ (i = 0 ∨ i = getTotalItems c - 1)))) ∧
    (∀ i : Int, tocIndexFromItemIndex c i = if hasSyncOption c then i - 1 else i) ∧
    Set.BijOn (tocIndexFromItemIndex c)
      {i : Int | 0 ≤ i ∧ i < getTotalItems c ∧ isSyncItem c i = false}
      (Set.Ico 0 c.epub.getTocItemsCount) := by
  refine ⟨rfl, ?_, ?_, ?_, ?_, ?_⟩
  · intro i _ _
    cases hs : hasSyncOption c <;> simp [isSyncItem, hs]
  · intro i
    cases hs : hasSyncOption c <;> simp [tocIndexFromItemIndex, hs]
  · intro i hi
    obtain ⟨h0, h1, h2⟩ := hi
    cases hs : hasSyncOption c
    · simp only [getTotalItems, hs] at h1
      simp only [tocIndexFromItemIndex, hs, Set.mem_Ico]
      constructor <;> simp at * <;> omega
    · simp only [getTotalItems, hs, if_true] at h1
      simp only [isSyncItem, hs, getTotalItems, Bool.not_true, Bool.false_eq_true, if_false,
        if_true, Bool.or_eq_false_iff, beq_eq_false_iff_ne, ne_eq] at h2
      simp only [tocIndexFromItemIndex, hs, Set.mem_Ico, if_true]
      omega
  · intro i _ j _ hij
    simp only [tocIndexFromItemIndex] at hij
    omega
  · intro k hk
    obtain ⟨hk0, hk1⟩ := hk
    cases hs : hasSyncOption c
    · refine ⟨k, ⟨hk0, ?_, ?_⟩, ?_⟩
      · simp only [getTotalItems, hs]; simp; omega
      · simp [isSyncItem, hs]
      · simp [tocIndexFromItemIndex, hs]
    · refine ⟨k + 1, ⟨by omega, ?_, ?_⟩, ?_⟩
      · simp only [getTotalItems, hs, if_true]; omega
      · simp only [isSyncItem, hs, getTotalItems, Bool.not_true, Bool.false_eq_true, if_false,
          if_true, Bool.or_eq_false_iff, beq_eq_false_iff_ne, ne_eq]
        omega
      · simp [tocIndexFromItemIndex, hs]

/-- Witness for C4: five chapters with the sync option enabled give seven entries; entries 0
and 6 are sync items, entry 1 is not and translates to chapter 0. -/
theorem sync_positions_and_toc_translation_witness :
    getTotalItems (onPortrait true 5) = 7 ∧
    isSyncItem (onPortrait true 5) 0 = true ∧ isSyncItem (onPortrait true 5) 6 = true ∧
    isSyncItem (onPortrait true 5) 1 = false ∧
    tocIndexFromItemIndex (onPortrait true 5) 1 = 0 :=
  have h := sync_positions_and_toc_translation (onPortrait true 5)
  ⟨h.1, (h.2.1 0 (by decide) (by decide)).2 ⟨rfl, Or.inl rfl⟩,
    (h.2.1 6 (by decide) (by decide)).2 ⟨rfl, Or.inr (by decide)⟩, by decide,
    (h.2.2.1 1).trans (by decide)⟩

/-! ## Confirm -/

/-- C5: in a tick of `loop` with no sub-activity and Confirm released, the selector is left
unchanged and the outcome is determined as follows: on a sync item the sync sub-activity is
launched (and becomes the sub-activity); otherwise, with `k = tocIndexFromItemIndex
(selectorIndex)`, the outcome is `onGoBack` when `getSpineIndexForTocIndex(k) = -1` and
`onSelectSpineIndex(getSpineIndexForTocIndex(k))` when it is not. This holds for every
selector value, those of `[0, totalItems)` in particular. -/
theorem confirm_resolution (c : Collaborators) (m : MappedInputManager) (a : Activity)
    (hsub : a.subActivity = false) (hconfirm : m.wasReleased Button.Confirm = true) :
    (loop c m a).1.selectorIndex = a.selectorIndex ∧
    (loop c m a).2 =
      (if isSyncItem c a.selectorIndex then Outcome.syncActivityLaunched
       else if c.epub.getSpineIndexForTocIndex (tocIndexFromItemIndex c a.selectorIndex) = -1
         then Outcome.goBack
       else Outcome.selectSpineIndex
         (c.epub.getSpineIndexForTocIndex (tocIndexFromItemIndex c a.selectorIndex))) ∧
    ((loop c m a).1.subActivity = true ↔ isSyncItem c a.selectorIndex = true) := by
  unfold loop
  simp only [hsub, hconfirm, Bool.false_eq_true, if_false, if_true, launchSyncActivity]
  cases hsync : isSyncItem c a.selectorIndex
  · by_cases hspine :
      c.epub.getSpineIndexForTocIndex (tocIndexFromItemIndex c a.selectorIndex) = -1
    · simp [hspine, hsub]
    · simp [hspine, hsub]
  · simp

/-- Witness for C5: five chapters with the sync option enabled (seven entries): Confirm on
entries 0 and 6 launches the sync activity, Confirm on entry 1 selects the spine item of
chapter 0; the selector stays where it was. -/
theorem confirm_resolution_witness :
    getTotalItems (onPortrait true 5) = 7 ∧
    loop (onPortrait true 5) (released Button.Confirm 0) (resting 0)
      = ({ resting 0 with subActivity := true }, Outcome.syncActivityLaunched) ∧
    loop (onPortrait true 5) (released Button.Confirm 0) (resting 6)
      = ({ resting 6 with subActivity := true }, Outcome.syncActivityLaunched) ∧
    tocIndexFromItemIndex (onPortrait true 5) 1 = 0 ∧
    (loop (onPortrait true 5) (released Button.Confirm 0) (resting 1)).2
      = Outcome.selectSpineIndex
          ((onPortrait true 5).epub.getSpineIndexForTocIndex 0) ∧
    (loop (onPortrait true 5) (released Button.Confirm 0) (resting 1)).1.selectorIndex = 1 :=
  have h := confirm_resolution (onPortrait true 5) (released Button.Confirm 0) (resting 1)
    rfl rfl
  ⟨by decide, by decide, by decide, by decide, h.2.1.trans (by decide), h.1⟩

/-! ## Viewport -/

/-- C6: `getPageItems()` is `max(1, availableHeight / 30)` with `availableHeight =
screenHeight - (60 + gutter) - 30`, where `gutter` is 50 in inverted portrait and 0 in the
other three orientations; it is at least 1 (so never a zero divisor), and it is exactly 1
whenever `availableHeight < 30`, negative values included. -/
theorem getPageItems_clamped (r : GfxRenderer) :
    availableHeight r
      = r.getScreenHeight
          - (60 + (if r.getOrientation = Orientation.PortraitInverted then 50 else 0)) - 30 ∧
    getPageItems r = max 1 (Int.tdiv (availableHeight r) 30) ∧
    1 ≤ getPageItems r ∧ getPageItems r ≠ 0 ∧
    (availableHeight r < 30 → getPageItems r = 1) := by
  have hpos := getPageItems_pos r
  refine ⟨?_, rfl, hpos, by omega, ?_⟩
  · cases ho : r.getOrientation <;> simp [availableHeight, ho]
  · intro h
    unfold getPageItems
    apply max_eq_left
    rcases le_or_lt 0 (availableHeight r) with hnn | hneg
    · rw [Int.tdiv_eq_zero_of_lt hnn h]
      decide
    · have h1 : (availableHeight r).tdiv 30 ≤ 0 := by
        have e : (availableHeight r).tdiv 30 = -((-availableHeight r).tdiv 30) := by
          rw [Int.neg_tdiv, neg_neg]
        have hq : 0 ≤ (-availableHeight r).tdiv 30 := Int.tdiv_nonneg (by omega) (by decide)
        omega
      omega

/-- Witness for C6: a panel 100 high leaves 10 available rows of pixels and a panel of height
0 leaves -90; both give one item per page, in inverted portrait as well. -/
theorem getPageItems_clamped_witness :
    availableHeight (panelOfHeight 100) = 10 ∧ getPageItems (panelOfHeight 100) = 1 ∧
    availableHeight (panelOfHeight 0) = -90 ∧ getPageItems (panelOfHeight 0) = 1 ∧
    getPageItems { panelOfHeight 169 with getOrientation := Orientation.PortraitInverted } = 1 :=
  ⟨by decide, (getPageItems_clamped (panelOfHeight 100)).2.2.2.2 (by decide),
    by decide, (getPageItems_clamped (panelOfHeight 0)).2.2.2.2 (by decide),
    (getPageItems_clamped _).2.2.2.2 (by decide)⟩

/-- C8 as stated fails: in upright portrait no gutter is reserved at all (no vertical gutter,
no horizontal one), and no two distinct orientations reserve a vertical gutter. -/
theorem portrait_reserves_no_gutter :
    (contentArea portraitPanel).hintGutterHeight = 0 ∧
    (contentArea portraitPanel).contentY = 0 ∧
    (contentArea portraitPanel).hintGutterWidth = 0 ∧
    availableHeight portraitPanel = 800 - 60 - 30 ∧
    ¬ ∃ o₁ o₂ : Orientation, o₁ ≠ o₂ ∧
        0 < (contentArea { portraitPanel with getOrientation := o₁ }).hintGutterHeight ∧
        0 < (contentArea { portraitPanel with getOrientation := o₂ }).hintGutterHeight := by
  refine ⟨by decide, by decide, by decide, by decide, ?_⟩
  rintro ⟨o₁, o₂, hne, h₁, h₂⟩
  cases o₁ <;> cases o₂ <;> simp_all [contentArea, portraitPanel]

/-- C8 amended: for a screen of any width and height, the content area of `renderScreen` is:
upright portrait - no gutter; inverted portrait - a vertical gutter of 50 at the top
(`hintGutterHeight = contentY = 50`, no horizontal gutter); landscape clockwise - a
horizontal gutter of 30 on the left (`contentX = hintGutterWidth = 30`, `contentWidth =
pageWidth - 30`); landscape counter-clockwise - a horizontal gutter of 30 on the right
(`contentX = 0`, `contentWidth = pageWidth - 30`). `getPageItems` reserves the same vertical
gutter below its fixed 60 rows of title area. -/
theorem orientation_gutter_rule (w h : Int) :
    contentArea { getScreenWidth := w, getScreenHeight := h,
                  getOrientation := Orientation.Portrait }
      = { hintGutterWidth := 0, contentX := 0, contentWidth := w,
          hintGutterHeight := 0, contentY := 0 } ∧
    contentArea { getScreenWidth := w, getScreenHeight := h,
                  getOrientation := Orientation.PortraitInverted }
      = { hintGutterWidth := 0, contentX := 0, contentWidth := w,
          hintGutterHeight := 50, contentY := 50 } ∧
    contentArea { getScreenWidth := w, getScreenHeight := h,
                  getOrientation := Orientation.LandscapeClockwise }
      = { hintGutterWidth := 30, contentX := 30, contentWidth := w - 30,
          hintGutterHeight := 0, contentY := 0 } ∧
    contentArea { getScreenWidth := w, getScreenHeight := h,
                  getOrientation := Orientation.LandscapeCounterClockwise }
      = { hintGutterWidth := 30, contentX := 0, contentWidth := w - 30,
          hintGutterHeight := 0, contentY := 0 } ∧
    (∀ o : Orientation,
      availableHeight { getScreenWidth := w, getScreenHeight := h, getOrientation := o }
        = h - (60 + (contentArea { getScreenWidth := w, getScreenHeight := h,
                                   getOrientation := o }).hintGutterHeight) - 30) := by
  refine ⟨?_, ?_, ?_, ?_, ?_⟩
  · simp [contentArea]
  · simp [contentArea]
  · simp [contentArea]
  · simp [contentArea]
  · intro o
    cases o <;> simp [availableHeight, contentArea]

/-! ## Entering the screen -/

/-- C7 as stated fails: a bound document that reports zero chapters, with the sync option
disabled, is entered all the same: `onEnter` requests the first update and creates the mutex
and the display task, while `getTotalItems()` is 0. -/
theorem onEnter_activates_empty_list :
    (plainEpub 0).getTocItemsCount = 0 ∧
    isActive (onEnter false (some (plainEpub 0)) 0 constructed) = true ∧
    getTotalItems { hasCredentials := false, renderer := portraitPanel, epub := plainEpub 0 }
      = 0 ∧
    ¬ (1 ≤ getTotalItems
        { hasCredentials := false, renderer := portraitPanel, epub := plainEpub 0 }) := by
  decide

/-- C7 amended: `onEnter` makes the screen active exactly when a document is bound, whatever
number of items it reports (without a document the activity is left untouched, so a freshly
constructed one stays inactive); and for a bound document with a non-negative item count,
`getTotalItems() ≥ 1` holds iff the document reports at least one item or the sync option is
enabled. -/
theorem onEnter_active_iff_bound (hasCredentials : Bool) (e : Epub) (r : GfxRenderer)
    (currentSpineIndex : Int) (a : Activity) (hcount : 0 ≤ e.getTocItemsCount) :
    isActive (onEnter hasCredentials (some e) currentSpineIndex a) = true ∧
    onEnter hasCredentials none currentSpineIndex a = a ∧
    isActive (onEnter hasCredentials none currentSpineIndex constructed) = false ∧
    (1 ≤ getTotalItems { hasCredentials := hasCredentials, renderer := r, epub := e } ↔
      (1 ≤ e.getTocItemsCount ∨ hasCredentials = true)) := by
  refine ⟨rfl, rfl, rfl, ?_⟩
  cases hasCredentials
  · simp [getTotalItems, hasSyncOption]
  · simp only [getTotalItems, hasSyncOption, if_true, or_true, iff_true]
    omega

/-- Witness for C7 amended: a bound document with five chapters and no sync option is
entered and shows five entries. -/
theorem onEnter_active_iff_bound_witness :
    isActive (onEnter false (some (plainEpub 5)) 0 constructed) = true ∧
    1 ≤ getTotalItems { hasCredentials := false, renderer := portraitPanel,
                        epub := plainEpub 5 } :=
  have h := onEnter_active_iff_bound false (plainEpub 5) portraitPanel 0 constructed
    (by decide)
  ⟨h.1, h.2.2.2.2 (Or.inl (by decide))⟩

/-! ## Teardown -/

theorem loop_keeps_handles (c : Collaborators) (m : MappedInputManager) (a : Activity) :
    (loop c m a).1.displayTaskHandle = a.displayTaskHandle ∧
    (loop c m a).1.renderingMutex = a.renderingMutex := by
  unfold loop
  simp only []
  split_ifs <;> simp [launchSyncActivity]

theorem invariant_entered (hasCredentials : Bool) (e : Epub) (currentSpineIndex : Int) :
    Invariant (entered hasCredentials e currentSpineIndex) := by
  simp [Invariant, entered, onEnter]

theorem invariant_displayTaskLoop {s s' : Screen} (hinv : Invariant s)
    (h : displayTaskLoop s = some s') : Invariant s' := by
  unfold Invariant at hinv ⊢
  unfold displayTaskLoop at h
  cases ha : s.taskAlive
  · simp [ha] at h
  · cases hd : s.display <;> rcases hh : s.mutexHolder with _ | (_ | _) <;>
      simp only [ha, hd, hh, xSemaphoreTake, xSemaphoreGive, Bool.not_true, Bool.false_eq_true,
        if_false, Option.map_some', Option.map_none', Option.some.injEq, reduceCtorEq] at h <;>
      (try split_ifs at h) <;>
      (try simp only [Option.some.injEq] at h) <;>
      (try subst h) <;>
      simp_all <;>
      tauto

theorem invariant_onExit {s s' : Screen} (hinv : Invariant s)
    (h : onExit s = some s') : Invariant s' := by
  unfold Invariant at hinv ⊢
  unfold onExit at h
  cases ha : s.taskAlive <;> cases hc : s.controller <;> rcases hh : s.mutexHolder with _ | (_ | _) <;>
    simp only [hc, hh, xSemaphoreTake, Option.map_some', Option.map_none',
      Option.some.injEq, reduceCtorEq] at h <;>
    (try split_ifs at h) <;>
    (try simp only [Option.some.injEq] at h) <;>
    (try subst h) <;>
    simp_all

theorem invariant_launchSyncActivityStep {s s' : Screen} (hinv : Invariant s)
    (h : launchSyncActivityStep s = some s') : Invariant s' := by
  unfold Invariant at hinv ⊢
  unfold launchSyncActivityStep at h
  cases hc : s.controller <;> rcases hh : s.mutexHolder with _ | (_ | _) <;>
    simp only [hc, hh, xSemaphoreTake, xSemaphoreGive, Option.map_some', Option.map_none',
      Option.some.injEq, reduceCtorEq] at h <;>
    (try subst h) <;>
    simp_all [launchSyncActivity]

theorem invariant_step {s s' : Screen} (act : Action) (hinv : Invariant s)
    (h : step act s = some s') : Invariant s' := by
  cases act with
  | callLoop c m =>
    have hk := loop_keeps_handles c m s.activity
    unfold Invariant at hinv ⊢
    simp only [step] at h
    split_ifs at h <;> simp only [Option.some.injEq] at h <;> subst h <;> simp_all
  | syncCancelled =>
    unfold Invariant at hinv ⊢
    simp only [step] at h
    split_ifs at h
    simp only [Option.some.injEq] at h
    subst h
    simp_all
  | syncCompleted =>
    unfold Invariant at hinv ⊢
    simp only [step] at h
    split_ifs at h
    simp only [Option.some.injEq] at h
    subst h
    simp_all
  | callOnExit left =>
    unfold Invariant at hinv ⊢
    simp only [step] at h
    split_ifs at h
    simp only [Option.some.injEq] at h
    subst h
    simp_all
  | controllerStep =>
    simp only [step] at h
    cases ho : onExit s with
    | some t =>
      rw [ho] at h
      simp only [Option.some.injEq] at h
      subst h
      exact invariant_onExit hinv ho
    | none =>
      rw [ho] at h
      exact invariant_launchSyncActivityStep hinv h
  | displayStep => exact invariant_displayTaskLoop hinv h

theorem invariant_run (sched : List Action) {s : Screen} (hinv : Invariant s) :
    Invariant (run sched s) := by
  induction sched generalizing s with
  | nil => exact hinv
  | cons act rest ih =>
    have e : run (act :: rest) s = run rest ((step act s).getD s) := rfl
    rw [e]
    apply ih
    cases hs : step act s with
    | none => exact hinv
    | some t => exact invariant_step act hinv hs

/-- A step that ends the display task is the `vTaskDelete` statement of `onExit()`. -/
theorem step_ending_task {s s' : Screen} {act : Action} (h : step act s = some s')
    (ha : s.taskAlive = true) (ha' : s'.taskAlive = false) :
    s.controller = ControllerPc.exitDeleteTask ∧
    s'.controller = ControllerPc.exitDeleteMutex ∧
    s'.mutexHolder = s.mutexHolder ∧ s'.display = s.display ∧
    s'.activity.renderingMutex = s.activity.renderingMutex := by
  cases act with
  | callLoop c m =>
    simp only [step] at h
    split_ifs at h <;> simp only [Option.some.injEq] at h <;> subst h <;> simp_all
  | syncCancelled =>
    simp only [step] at h
    split_ifs at h
    simp only [Option.some.injEq] at h
    subst h
    simp_all
  | syncCompleted =>
    simp only [step] at h
    split_ifs at h
    simp only [Option.some.injEq] at h
    subst h
    simp_all
  | callOnExit left =>
    simp only [step] at h
    split_ifs at h
    simp only [Option.some.injEq] at h
    subst h
    simp_all
  | controllerStep =>
    simp only [step, onExit, launchSyncActivityStep, xSemaphoreTake, xSemaphoreGive] at h
    cases hc : s.controller <;> rcases hh : s.mutexHolder with _ | (_ | _) <;>
      simp only [hc, hh, Option.map_some', Option.map_none', Option.some.injEq,
        reduceCtorEq] at h <;>
      (try split_ifs at h) <;>
      (try simp only [Option.some.injEq] at h) <;>
      (try subst h) <;>
      simp_all
  | displayStep =>
    simp only [step, displayTaskLoop, xSemaphoreTake, xSemaphoreGive] at h
    cases hd : s.display <;> rcases hh : s.mutexHolder with _ | (_ | _) <;>
      simp only [ha, hd, hh, Bool.not_true, Bool.false_eq_true, if_false, Option.map_some',
        Option.map_none', Option.some.injEq, reduceCtorEq] at h <;>
      (try split_ifs at h) <;>
      (try simp only [Option.some.injEq] at h) <;>
      (try subst h) <;>
      simp_all

/-- A step that destroys the mutex is the `vSemaphoreDelete` statement of `onExit()`. -/
theorem step_destroying_mutex {s s' : Screen} {act : Action} (h : step act s = some s')
    (hm : s.activity.renderingMutex = true) (hm' : s'.activity.renderingMutex = false) :
    s.controller = ControllerPc.exitDeleteMutex ∧ s'.controller = ControllerPc.exited := by
  cases act with
  | callLoop c m =>
    have hk := loop_keeps_handles c m s.activity
    simp only [step] at h
    split_ifs at h <;> simp only [Option.some.injEq] at h <;> subst h <;> simp_all
  | syncCancelled =>
    simp only [step] at h
    split_ifs at h
    simp only [Option.some.injEq] at h
    subst h
    simp_all
  | syncCompleted =>
    simp only [step] at h
    split_ifs at h
    simp only [Option.some.injEq] at h
    subst h
    simp_all
  | callOnExit left =>
    simp only [step] at h
    split_ifs at h
    simp only [Option.some.injEq] at h
    subst h
    simp_all
  | controllerStep =>
    simp only [step, onExit, launchSyncActivityStep, xSemaphoreTake, xSemaphoreGive] at h
    cases hc : s.controller <;> rcases hh : s.mutexHolder with _ | (_ | _) <;>
      simp only [hc, hh, Option.map_some', Option.map_none', Option.some.injEq,
        reduceCtorEq] at h <;>
      (try split_ifs at h) <;>
      (try simp only [Option.some.injEq] at h) <;>
      (try subst h) <;>
      simp_all [launchSyncActivity]
  | displayStep =>
    simp only [step, displayTaskLoop, xSemaphoreTake, xSemaphoreGive] at h
    cases ha : s.taskAlive <;> cases hd : s.display <;>
      rcases hh : s.mutexHolder with _ | (_ | _) <;>
      simp only [ha, hd, hh, Bool.not_true, Bool.not_false, Bool.false_eq_true, if_false,
        if_true, Option.map_some', Option.map_none', Option.some.injEq, reduceCtorEq] at h <;>
      (try split_ifs at h) <;>
      (try simp only [Option.some.injEq] at h) <;>
      (try subst h) <;>
      simp_all

theorem invariant_of_reachable {s : Screen} (h : Reachable s) : Invariant s := by
  obtain ⟨hasCredentials, e, currentSpineIndex, sched, rfl⟩ := h
  exact invariant_run sched (invariant_entered hasCredentials e currentSpineIndex)

/-- C9: in every execution of an entered screen (any interleaving of the control loop, the
sub-activity callbacks, `onExit()` and `displayTaskLoop()` from the state `onEnter()` leaves)
the display task holds `renderingMutex` for the whole of a paint; a deleted display task was
not deleted in the middle of a paint and does not hold the mutex; `onExit()` does not get past
its `xSemaphoreTake` while the display task holds the mutex; the only step that ends the
display task is the `vTaskDelete` of `onExit()`, taken while the controller holds the mutex
that `onExit()` acquired, with no paint in progress and the mutex still in existence; and the
only step that destroys the mutex is the `vSemaphoreDelete` of `onExit()`, taken by the
holder of the mutex after the task is gone. -/
theorem lock_before_terminate (s : Screen) (hreach : Reachable s) :
    (painting s = true → s.mutexHolder = some Context.displayTask ∧ s.taskAlive = true) ∧
    (s.taskAlive = false →
      painting s = false ∧ s.mutexHolder ≠ some Context.displayTask) ∧
    (s.controller = ControllerPc.exitTake → s.mutexHolder = some Context.displayTask →
      step Action.controllerStep s = none) ∧
    (∀ (act : Action) (s' : Screen), step act s = some s' →
      s.taskAlive = true → s'.taskAlive = false →
        s.controller = ControllerPc.exitDeleteTask ∧
        s.mutexHolder = some Context.controller ∧ painting s = false ∧
        s'.controller = ControllerPc.exitDeleteMutex ∧
        s'.mutexHolder = some Context.controller ∧ s'.activity.renderingMutex = true) ∧
    (∀ (act : Action) (s' : Screen), step act s = some s' →
      s.activity.renderingMutex = true → s'.activity.renderingMutex = false →
        s.controller = ControllerPc.exitDeleteMutex ∧
        s.mutexHolder = some Context.controller ∧ s.taskAlive = false ∧
        s'.controller = ControllerPc.exited) := by
  have hinv := invariant_of_reachable hreach
  obtain ⟨h1, h2, h3, h4, h5, h6⟩ := hinv
  have hdead : s.taskAlive = false → s.mutexHolder ≠ some Context.displayTask := by
    intro ha hh
    rcases h3.1 ha with hc | hc
    · have hk := h2.2 (Or.inr (Or.inr (Or.inr hc)))
      rw [hh] at hk
      simp at hk
    · have hk := h6 hc
      rw [hh] at hk
      simp at hk
  have hpaint : painting s = true → s.mutexHolder = some Context.displayTask := by
    intro hp
    have hd : s.display = DisplayPc.draw ∨ s.display = DisplayPc.flush := by
      simpa [painting] using hp
    exact h1.2 (hd.elim Or.inl (fun h => Or.inr (Or.inl h)))
  have hlocked : s.mutexHolder = some Context.controller → painting s = false := by
    intro hh
    cases hp : painting s
    · rfl
    · have hk := hpaint hp
      rw [hh] at hk
      simp at hk
  refine ⟨?_, ?_, ?_, ?_, ?_⟩
  · intro hp
    refine ⟨hpaint hp, ?_⟩
    cases ha : s.taskAlive
    · exact absurd (hpaint hp) (hdead ha)
    · rfl
  · intro ha
    refine ⟨?_, hdead ha⟩
    cases hp : painting s
    · rfl
    · exact absurd (hpaint hp) (hdead ha)
  · intro hc hh
    simp [step, onExit, launchSyncActivityStep, xSemaphoreTake, hc, hh]
  · intro act s' hstep ha ha'
    obtain ⟨hc, hc', hm, _, hr⟩ := step_ending_task hstep ha ha'
    have hh : s.mutexHolder = some Context.controller := h2.2 (Or.inr (Or.inr (Or.inl hc)))
    refine ⟨hc, hh, hlocked hh, hc', hm.trans hh, ?_⟩
    rw [hr]
    cases hx : s.activity.renderingMutex
    · have hk := h5.1 hx
      rw [hc] at hk
      simp at hk
    · rfl
  · intro act s' hstep hm hm'
    obtain ⟨hc, hc'⟩ := step_destroying_mutex hstep hm hm'
    exact ⟨hc, h2.2 (Or.inr (Or.inr (Or.inr hc))), h3.2 (Or.inl hc), hc'⟩

/-- Witness for C9: a teardown requested during a paint. After the display task has started
to draw and the host has called `onExit()`, the controller cannot take the mutex; once the
paint is over and the mutex given, `onExit()` takes the mutex, deletes the task (which stands
at its delay statement) and destroys the mutex. -/
theorem lock_before_terminate_witness :
    painting (run (teardownDuringPaint.take 4) (entered false (plainEpub 3) 0)) = true ∧
    (run (teardownDuringPaint.take 4) (entered false (plainEpub 3) 0)).controller
      = ControllerPc.exitTake ∧
    step Action.controllerStep (run (teardownDuringPaint.take 4) (entered false (plainEpub 3) 0))
      = none ∧
    (run (teardownDuringPaint.take 7) (entered false (plainEpub 3) 0)).controller
      = ControllerPc.exitTake ∧
    (run (teardownDuringPaint.take 10) (entered false (plainEpub 3) 0)).mutexHolder
      = some Context.controller ∧
    painting (run (teardownDuringPaint.take 10) (entered false (plainEpub 3) 0)) = false ∧
    (run (teardownDuringPaint.take 11) (entered false (plainEpub 3) 0)).taskAlive = false ∧
    (run (teardownDuringPaint.take 11) (entered false (plainEpub 3) 0)).display
      = DisplayPc.delay ∧
    (run teardownDuringPaint (entered false (plainEpub 3) 0)).controller
      = ControllerPc.exited ∧
    (run teardownDuringPaint (entered false (plainEpub 3) 0)).activity.renderingMutex
      = false :=
  have h4 := lock_before_terminate
    (run (teardownDuringPaint.take 4) (entered false (plainEpub 3) 0)) ⟨_, _, _, _, rfl⟩
  have h10 := lock_before_terminate
    (run (teardownDuringPaint.take 10) (entered false (plainEpub 3) 0)) ⟨_, _, _, _, rfl⟩
  have hkill := h10.2.2.2.1 Action.controllerStep
    (run (teardownDuringPaint.take 11) (entered false (plainEpub 3) 0))
    (by decide) (by decide) (by decide)
  ⟨by decide, by decide, h4.2.2.1 (by decide) (by decide), by decide, hkill.2.1, hkill.2.2.1,
    by decide, by decide, by decide, by decide⟩

end ChapterSelection
